import Mathlib

/-!
Verification of the response object model and client argument checking of the
LoopringAPI python library (files src/loopring/order.py and src/loopring/client.py),
by a shallow embedding in Lean 4.

Python values occurring in the data mappings handed to the object model are
embedded as the inductive type PyVal; an object instance dictionary is an
association list of attribute names to values, written with explicit setattr
and lookup so that the insert-or-overwrite semantics of python attribute
assignment is preserved.
-/

/-- Embedding of the python values that can occur in a decoded JSON mapping or
in an attribute slot: strings, integers, booleans, None, dictionaries, lists
and constructed objects (class name plus instance dictionary). -/
inductive PyVal where
  | str (s : String)
  | int (n : Int)
  | bool (b : Bool)
  | none
  | dict (d : List (String × PyVal))
  | list (l : List PyVal)
  | obj (cls : String) (fields : List (String × PyVal))

/-- A decoded JSON mapping (python dict with string keys), in insertion order. -/
abbrev Dict := List (String × PyVal)

/-- An instance attribute dictionary. -/
abbrev Attrs := List (String × PyVal)

/-- Attribute lookup in an instance dictionary (first binding wins, as every
binding is kept unique by setattr). -/
def lookupA : Attrs → String → Option PyVal
  | [], _ => Option.none
  | kv :: rest, k => if kv.1 = k then some kv.2 else lookupA rest k

/-- Embedding of python setattr on an instance dictionary: overwrite the
existing binding if present, otherwise append a new one. -/
def setattr (a : Attrs) (k : String) (v : PyVal) : Attrs :=
  match a with
  | [] => [(k, v)]
  | kv :: rest => if kv.1 = k then (k, v) :: rest else kv :: setattr rest k v

/-- A loop of the form `for k in data: setattr(self, norm(k), valOf(k, data[k]))`,
the shape of every constructor loop in order.py. -/
def foldAssign (norm : String → String) (valOf : String × PyVal → PyVal)
    (a : Attrs) (data : Dict) : Attrs :=
  data.foldl (fun acc kv => setattr acc (norm kv.1) (valOf kv)) a

/-- Modelled from the spec: the function to_snake_case is defined in
loopring/util/helpers.py, which is not among the provided sources (only its
callers in order.py and client.py are). The spec describes it as the uniform
camelCase to snake_case normalization of wire field names, with
orderHash mapped to order_hash and accountId mapped to account_id: every
uppercase letter is replaced by an underscore followed by its lowercase form. -/
def to_snake_case (s : String) : String :=
  String.mk (s.data.foldr (fun c acc => if c.isUpper then '_' :: c.toLower :: acc else c :: acc) [])

/-- The fixed set of camelCase wire field names actually used by this API:
every key read from a wire mapping or sent as a request parameter in
order.py and client.py. -/
def wireFields : List String :=
  ["accountId", "asks", "baseAmount", "baseFilled", "bids", "clientOrderId",
   "end", "fee", "hash", "isIdempotent", "limit", "market", "offset",
   "orderHash", "orderType", "orderTypes", "price", "quoteAmount",
   "quoteFilled", "sellTokenId", "side", "start", "status", "timestamp",
   "tradeChannel", "tradeChannels", "validity", "version", "volumes"]

/-- An object of the Transfer / PartialOrder / Order hierarchy: its class name
(the value of `self.__class__.__name__`), the raw mapping stored in the
name-mangled slot `_PartialOrder__json`, and the instance attribute dictionary
holding the typed fields. -/
structure PyObj where
  cls : String
  json : Dict
  attrs : Attrs

/-- Embedding of `Transfer.__init__` (order.py lines 77 to 79): assign every
key of the mapping, name-normalized, to the instance. The identical loop is
repeated verbatim in `PartialOrder.__init__` (lines 114 to 115). -/
def Transfer.initLoop (a : Attrs) (data : Dict) : Attrs :=
  foldAssign to_snake_case Prod.snd a data

/-- Embedding of `PartialOrder._is_error` (order.py lines 129 to 136).
The python parameter `init` defaults to None; both None and an empty dict are
falsy, so the `not init` branch tests `not hasattr(self, "hash")`, while a
non-empty `init` selects the key-count test `len(self.__json) < 2`. -/
def PartialOrder.isErrorCheck (o : PyObj) (init : Option Dict) : Bool :=
  match init with
  | Option.none => !(lookupA o.attrs "hash").isSome
  | some d =>
      if d.isEmpty then !(lookupA o.attrs "hash").isSome
      else decide (o.json.length < 2)

/-- Embedding of `PartialOrder.__init__` (order.py lines 104 to 115), run on an
instance of class `cls` (PartialOrder itself, or Order via `super().__init__`):
store the raw mapping in `self.__json`, return early if `self._is_error(data)`,
otherwise run the `Transfer.__init__` loop and then the identical local loop.
The `self.__annotations__.update(...)` line only touches class annotations and
has no effect on instance state. -/
def PartialOrder.initObj (cls : String) (data : Dict) : PyObj :=
  if PartialOrder.isErrorCheck { cls := cls, json := data, attrs := [] } (some data) then
    { cls := cls, json := data, attrs := [] }
  else
    { cls := cls, json := data, attrs := Transfer.initLoop (Transfer.initLoop [] data) data }

/-- Constructing a PartialOrder instance directly. -/
def PartialOrder.init (data : Dict) : PyObj :=
  PartialOrder.initObj "PartialOrder" data

/-- Embedding of `datetime.fromtimestamp` on embedded values as called at
order.py line 39: numeric arguments (python ints, and bools, which are ints)
produce a datetime object carrying the epoch-seconds value; every other
argument raises TypeError. CPython additionally raises a platform-dependent
OverflowError or OSError for numeric timestamps outside the platform range;
that range restriction is not modelled, so the successful executions of the
model are a superset of those of CPython, and every theorem below whose
conclusion is conditional on a successful construction therefore remains
valid for the program. -/
def pyFromTimestamp : PyVal → Except String PyVal
  | .int n => .ok (.obj "datetime" [("timestamp", .int n)])
  | .bool b => .ok (.obj "datetime" [("timestamp", .int (if b then 1 else 0))])
  | _ => .error "TypeError: an integer is required"

/-- Embedding of `Validity(**data[k])` as called at order.py line 204,
together with `Validity.__init__` (order.py lines 37 to 39): splatting a
non-mapping raises TypeError before the body runs, and every value of the
sub-mapping is passed to `datetime.fromtimestamp`, which raises TypeError on
non-numeric values; a successful construction assigns each key
(un-normalized) the resulting datetime. -/
def Validity.init (v : PyVal) : Except String PyVal :=
  match v with
  | .dict d => do
      let fields ← d.foldlM (fun a kv => do
        let dt ← pyFromTimestamp kv.2
        pure (setattr a kv.1 dt)) []
      pure (.obj "Validity" fields)
  | _ => .error "TypeError: argument after ** must be a mapping"

/-- Embedding of `Volume(**data[k])` as called at order.py line 207, together
with `Volume.__init__` (order.py lines 63 to 65): splatting a non-mapping
raises TypeError before the body runs; otherwise every key of the sub-mapping
is assigned, name-normalized (the body itself never raises). -/
def Volume.init (v : PyVal) : Except String PyVal :=
  match v with
  | .dict d => .ok (.obj "Volume" (foldAssign to_snake_case Prod.snd [] d))
  | _ => .error "TypeError: argument after ** must be a mapping"

/-- One iteration of the assignment loop of `Order.__init__` (order.py lines
202 to 210): the keys validity and volumes construct nested objects, whose
TypeErrors propagate and abort the construction; every other key is assigned
name-normalized, which never raises. -/
def Order.step (a : Attrs) (kv : String × PyVal) : Except String Attrs :=
  if kv.1 = "validity" then do
    let v ← Validity.init kv.2
    pure (setattr a kv.1 v)
  else if kv.1 = "volumes" then do
    let v ← Volume.init kv.2
    pure (setattr a kv.1 v)
  else pure (setattr a (to_snake_case kv.1) kv.2)

/-- Embedding of `Order.__init__` (order.py lines 194 to 210): the annotation
update has no instance effect, `super().__init__(**data)` runs the PartialOrder
constructor on the Order instance (which is total: it stores the raw mapping
and setattrs raw values), then `if self._is_error(data): return`, then the
assignment loop with the validity / volumes special cases. A TypeError raised
while constructing a nested Validity or Volume propagates out of the
constructor, so no object is produced: the result is Except.error exactly
where the python constructor raises (modulo the timestamp range caveat on
pyFromTimestamp, whose successes are a superset of those of CPython). -/
def Order.init (data : Dict) : Except String PyObj :=
  if PartialOrder.isErrorCheck (PartialOrder.initObj "Order" data) (some data) then
    Except.ok (PartialOrder.initObj "Order" data)
  else do
    let attrs ← data.foldlM Order.step (PartialOrder.initObj "Order" data).attrs
    pure { PartialOrder.initObj "Order" data with attrs := attrs }

/-- A default attribute read on a PartialOrder instance: the `json` property
(order.py lines 138 to 154) returns the raw mapping; any other name is looked
up in the instance dictionary and raises AttributeError when absent (class
level annotations carry no values). -/
def PartialOrder.getattr (o : PyObj) (name : String) : Except String PyVal :=
  if name = "json" then .ok (.dict o.json)
  else
    match lookupA o.attrs name with
    | some v => .ok v
    | Option.none => .error ("AttributeError: " ++ name)

/-- Embedding of `Order.__getattribute__` (order.py lines 189 to 192): reading
the name is_idempotent raises AttributeError unconditionally; every other read
defers to the default lookup. -/
def Order.getattribute (o : PyObj) (name : String) : Except String PyVal :=
  if name = "is_idempotent" then
    .error ("type object \x27Order\x27 has no attribute \x27" ++ name ++ "\x27")
  else PartialOrder.getattr o name

/-- The function auto_repr is defined in loopring/util/helpers.py, which is not
among the provided sources. No claim inspects the non-placeholder repr text, so
it is modelled as a summary of the class name and attribute names; only the
fact that this branch is total (never raises) matters below. -/
def auto_repr (o : PyObj) : String :=
  "<" ++ o.cls ++ " " ++ String.intercalate " " (o.attrs.map Prod.fst) ++ ">"

/-- Embedding of `PartialOrder.__repr__` (order.py lines 117 to 121): the
placeholder test is `self._is_error()` with no argument. -/
def PartialOrder.reprFn (o : PyObj) : String :=
  if PartialOrder.isErrorCheck o Option.none then "<Incomplete PartialOrder>"
  else auto_repr o

/-- Embedding of `Order.__repr__` (order.py lines 212 to 216). -/
def Order.reprFn (o : PyObj) : String :=
  if PartialOrder.isErrorCheck o Option.none then "<Incomplete Order>"
  else auto_repr o

/-- Embedding of `PartialOrder.__str__` (order.py lines 123 to 127), inherited
by Order: on a placeholder it formats the class name, otherwise it returns
`self.hash` (a TypeError if that attribute is not a string, an AttributeError
if it is absent, both impossible on the non-placeholder branch for string
valued hash keys). -/
def PartialOrder.strFn (o : PyObj) : Except String String :=
  if PartialOrder.isErrorCheck o Option.none then .ok ("Incomplete " ++ o.cls ++ ".")
  else
    match lookupA o.attrs "hash" with
    | some (.str h) => .ok h
    | some _ => .error "TypeError: __str__ returned non-string"
    | Option.none => .error "AttributeError: hash"

/-- Strip leading and trailing whitespace from a character list, as the python
int() conversion does before parsing. -/
def stripWS (cs : List Char) : List Char :=
  ((cs.dropWhile Char.isWhitespace).reverse.dropWhile Char.isWhitespace).reverse

/-- Decimal value of a digit list. -/
def digitsToNat (cs : List Char) : Nat :=
  cs.foldl (fun acc c => acc * 10 + (c.toNat - '0'.toNat)) 0

/-- Embedding of the python int(str) conversion: optional surrounding
whitespace, optional sign, then decimal digits only; anything else (for
example the fractional string "99.5") raises ValueError, modelled as
Option.none. -/
def toIntOption (s : String) : Option Int :=
  match stripWS s.data with
  | [] => Option.none
  | c :: rest =>
      if c = '-' then
        if rest.isEmpty then Option.none
        else if rest.all Char.isDigit then some (-(digitsToNat rest : Int)) else Option.none
      else if c = '+' then
        if rest.isEmpty then Option.none
        else if rest.all Char.isDigit then some (digitsToNat rest : Int) else Option.none
      else if (c :: rest).all Char.isDigit then some (digitsToNat (c :: rest) : Int)
      else Option.none

/-- Embedding of the python int(x) builtin on the values it is applied to in
order.py: strings are parsed, integers pass through, booleans coerce to 0 or 1;
every other argument raises TypeError, modelled as Option.none. -/
def pyIntCoerce : PyVal → Option Int
  | .str s => toIntOption s
  | .int n => some n
  | .bool b => some (if b then 1 else 0)
  | _ => Option.none

/-- An order book level entry. -/
structure BookOrder where
  price : PyVal
  quantity : Int
  size : Int
  volume : Int

/-- Embedding of `_OrderBookOrder.__init__` (order.py lines 226 to 230): the
positional parameters are, in this order, price, size, volume, quantity; the
body converts quantity first, then size, then volume, with int(), so the first
non-integer among them raises ValueError. -/
def BookOrder.init (price size volume quantity : PyVal) : Option BookOrder := do
  let q ← pyIntCoerce quantity
  let s ← pyIntCoerce size
  let v ← pyIntCoerce volume
  pure { price := price, quantity := q, size := s, volume := v }

/-- Embedding of `Ask(*a)` (order.py line 263): a 4-element wire array is
splatted positionally onto (price, size, volume, quantity); any other arity
raises TypeError, modelled as Option.none. -/
def Ask.ofList (a : List PyVal) : Option BookOrder :=
  match a with
  | [p, s, v, q] => BookOrder.init p s v q
  | _ => Option.none

/-- Embedding of `Bid(*b)` (order.py line 270), identical in shape to Ask. -/
def Bid.ofList (b : List PyVal) : Option BookOrder :=
  match b with
  | [p, s, v, q] => BookOrder.init p s v q
  | _ => Option.none

/-- An OrderBook instance: the ask and bid lists (Option.none while the
corresponding attribute is unset) and the remaining attributes. -/
structure OrderBookObj where
  asks : Option (List BookOrder) := Option.none
  bids : Option (List BookOrder) := Option.none
  attrs : Attrs := []

/-- Embedding of the timestamp branch of `OrderBook.__init__` (order.py line
274): `datetime.fromtimestamp(data[k] / 1000)`, modelled as an opaque datetime
object carrying the raw millisecond value; no claim inspects it. -/
def pyFromTimestampMs (v : PyVal) : PyVal :=
  .obj "datetime" [("timestamp_ms", v)]

/-- Embedding of `OrderBook.__init__` (order.py lines 257 to 276): the asks and
bids keys build the entry lists by positional unpacking (a ValueError from any
int() conversion aborts the whole construction), timestamp is converted, and
every other key is assigned name-normalized. Iterating a non-list where python
would raise TypeError is modelled as failure. -/
def OrderBook.init (data : Dict) : Option OrderBookObj :=
  data.foldlM (fun ob kv =>
    if kv.1 = "asks" then
      match kv.2 with
      | .list l => do
          let asks ← l.mapM (fun a =>
            match a with
            | .list arr => Ask.ofList arr
            | _ => Option.none)
          pure { ob with asks := some asks }
      | _ => Option.none
    else if kv.1 = "bids" then
      match kv.2 with
      | .list l => do
          let bids ← l.mapM (fun b =>
            match b with
            | .list arr => Bid.ofList arr
            | _ => Option.none)
          pure { ob with bids := some bids }
      | _ => Option.none
    else if kv.1 = "timestamp" then
      pure { ob with attrs := setattr ob.attrs kv.1 (pyFromTimestampMs kv.2) }
    else
      pure { ob with attrs := setattr ob.attrs (to_snake_case kv.1) kv.2 })
    {}

/-- Embedding of `OrderBook.__len__` (order.py lines 278 to 279): the sum of
quantity over all asks and bids; reading an unset asks or bids attribute
raises AttributeError, modelled as Option.none. -/
def OrderBook.len (ob : OrderBookObj) : Option Int :=
  match ob.asks, ob.bids with
  | some as, some bs => some ((as ++ bs).foldl (fun n o => n + o.quantity) 0)
  | _, _ => Option.none

/-- Python truthiness for the embedded values: None, False, 0, empty strings
and empty containers are falsy, everything else (constructed objects included)
is truthy. -/
def pyTruthy : PyVal → Bool
  | .none => false
  | .bool b => b
  | .int n => n != 0
  | .str s => s != ""
  | .dict d => !d.isEmpty
  | .list l => !l.isEmpty
  | .obj _ _ => true

/-- Python dict.get with the default None. -/
def dictGet (d : Dict) (k : String) : PyVal :=
  (lookupA d k).getD .none

/-- The python `a or b` on values: the first operand if truthy, else the
second. -/
def pyOr (a b : PyVal) : PyVal :=
  if pyTruthy a then a else b

/-- The errors the embedded client code can raise synchronously. -/
inductive ClientError where
  | keyError (key : String)
  | invalidArguments (msg : String)
  | attributeError (msg : String)
deriving DecidableEq

/-- The connection session (aiohttp.ClientSession): the only state the claims
inspect is the closed flag. -/
structure Session where
  closed : Bool
deriving DecidableEq

/-- The state of a successfully constructed Client. -/
structure ClientState where
  account_id : PyVal
  api_key : PyVal
  endpoint : PyVal
  handle_errors : Bool
  session : Session

/-- The HTTP request a client method hands to the transport layer; a method
that raises before reaching the transport produces no such value. -/
structure HttpRequest where
  url : String
  headers : List (String × PyVal)
  params : List (String × PyVal)

/-- Path constants come from loopring/util/enums.py, which is not among the
provided sources; the spec names the endpoints without literal paths, so
symbolic strings stand in. Their values are irrelevant to every claim. -/
def PATH_STORAGE_ID : String := "PATH.STORAGE_ID"

/-- Symbolic stand-in for the single-order lookup path constant. -/
def PATH_ORDER : String := "PATH.ORDER"

/-- String content of an embedded value, used where python concatenates the
endpoint (a string enum member) with a path; a non-string endpoint would raise
TypeError in python, a case no claim reaches. -/
def pyStrOf : PyVal → String
  | .str s => s
  | _ => ""

/-- Embedding of `Client.__init__` (client.py lines 38 to 63): the keyword-only
rest parameters are the mapping `config`; the first statement after storing
handle_errors is `cfg = config["config"]`, a KeyError when that key is absent;
a cfg without a get method (not a dict) raises AttributeError; then the three
missing-configuration checks raise InvalidArguments in order (a check passes
when the cfg entry or the positional argument is truthy); only after all
checks does the constructor create the connection session. -/
def Client.init (account_id api_key endpoint : PyVal) (handle_errors : Bool)
    (config : Dict) : Except ClientError ClientState :=
  match lookupA config "config" with
  | Option.none => .error (.keyError "config")
  | some cfgVal =>
      match cfgVal with
      | .dict cfg =>
          if !(pyTruthy (pyOr (dictGet cfg "account_id") account_id)) then
            .error (.invalidArguments "Missing account ID from config.")
          else if !(pyTruthy (pyOr (dictGet cfg "api_key") api_key)) then
            .error (.invalidArguments "Missing API Key from config.")
          else if !(pyTruthy (pyOr (dictGet cfg "endpoint") endpoint)) then
            .error (.invalidArguments "Missing endpoint from config.")
          else
            .ok { account_id := pyOr (dictGet cfg "account_id") account_id,
                  api_key := pyOr (dictGet cfg "api_key") api_key,
                  endpoint := pyOr (dictGet cfg "endpoint") endpoint,
                  handle_errors := handle_errors,
                  session := { closed := false } }
      | _ => .error (.attributeError "get")

/-- The close method of the underlying aiohttp session: it marks the session
closed. -/
def Session.closeRaw (s : Session) : Session :=
  { s with closed := true }

/-- Embedding of `Client.close` (client.py lines 69 to 73): close the
underlying session only when it is not already closed. The function is total:
no path raises. -/
def Client.close (s : Session) : Session :=
  if !s.closed then s.closeRaw else s

/-- Embedding of the argument check of `Client.get_next_storage_id` (client.py
lines 193 to 203): a falsy sell_token_id (None, but also 0) raises
InvalidArguments before the request is built; otherwise the GET request is
handed to the transport layer. -/
def Client.get_next_storage_id (c : ClientState) (sell_token_id : PyVal) :
    Except ClientError HttpRequest :=
  if !(pyTruthy sell_token_id) then
    .error (.invalidArguments "Missing \x27sellTokenID\x27 argument.")
  else
    .ok { url := pyStrOf c.endpoint ++ PATH_STORAGE_ID,
          headers := [("X-API-KEY", c.api_key)],
          params := [("accountId", c.account_id), ("sellTokenId", sell_token_id)] }

/-- Embedding of the argument check of `Client.get_order_details` (client.py
lines 231 to 241): a falsy orderhash raises InvalidArguments before the
request is built. -/
def Client.get_order_details (c : ClientState) (orderhash : PyVal) :
    Except ClientError HttpRequest :=
  if !(pyTruthy orderhash) then
    .error (.invalidArguments "Missing \x27orderhash\x27 argument.")
  else
    .ok { url := pyStrOf c.endpoint ++ PATH_ORDER,
          headers := [("X-API-KEY", c.api_key)],
          params := [("accountId", c.account_id), ("orderHash", orderhash)] }

/-- Whether an Except value is a success. -/
def exceptIsOk {ε α : Type} : Except ε α → Bool
  | .ok _ => true
  | .error _ => false

/-! Helper lemmas about the attribute dictionary and the assignment loops. -/

theorem lookupA_setattr_self (a : Attrs) (k : String) (v : PyVal) :
    lookupA (setattr a k v) k = some v := by
  induction a with
  | nil => simp [setattr, lookupA]
  | cons kv rest ih =>
      by_cases h : kv.1 = k
      · simp [setattr, h, lookupA]
      · simp [setattr, h, lookupA, ih]

theorem lookupA_setattr_ne (a : Attrs) (k : String) (v : PyVal) (k2 : String)
    (h : k ≠ k2) : lookupA (setattr a k v) k2 = lookupA a k2 := by
  induction a with
  | nil => simp [setattr, lookupA, h]
  | cons kv rest ih =>
      by_cases hk : kv.1 = k
      · have hne : kv.1 ≠ k2 := by rw [hk]; exact h
        simp [setattr, hk, lookupA, h, hne]
      · simp [setattr, hk, lookupA, ih]

theorem isSome_lookupA_setattr (a : Attrs) (k : String) (v : PyVal) (name : String)
    (h : (lookupA a name).isSome) : (lookupA (setattr a k v) name).isSome := by
  by_cases hk : k = name
  · subst hk; simp [lookupA_setattr_self]
  · rwa [lookupA_setattr_ne a k v name hk]

theorem foldAssign_cons (norm : String → String) (valOf : String × PyVal → PyVal)
    (a : Attrs) (kv : String × PyVal) (rest : Dict) :
    foldAssign norm valOf a (kv :: rest) =
      foldAssign norm valOf (setattr a (norm kv.1) (valOf kv)) rest := rfl

theorem lookupA_foldAssign_not_mem (norm : String → String)
    (valOf : String × PyVal → PyVal) (data : Dict) (a : Attrs) (name : String)
    (h : ∀ kv ∈ data, norm kv.1 ≠ name) :
    lookupA (foldAssign norm valOf a data) name = lookupA a name := by
  induction data generalizing a with
  | nil => rfl
  | cons kv rest ih =>
      rw [foldAssign_cons, ih _ (fun x hx => h x (List.mem_cons_of_mem _ hx)),
        lookupA_setattr_ne _ _ _ _ (h kv (List.mem_cons_self _ _))]

theorem isSome_lookupA_foldAssign_of_isSome (norm : String → String)
    (valOf : String × PyVal → PyVal) (data : Dict) (a : Attrs) (name : String)
    (h : (lookupA a name).isSome) :
    (lookupA (foldAssign norm valOf a data) name).isSome := by
  induction data generalizing a with
  | nil => exact h
  | cons kv rest ih => exact ih _ (isSome_lookupA_setattr _ _ _ _ h)

theorem isSome_lookupA_foldAssign_of_mem (norm : String → String)
    (valOf : String × PyVal → PyVal) (data : Dict) (a : Attrs) (name : String)
    (h : ∃ kv ∈ data, norm kv.1 = name) :
    (lookupA (foldAssign norm valOf a data) name).isSome := by
  induction data generalizing a with
  | nil => exact absurd h (by simp)
  | cons kv rest ih =>
      rcases h with ⟨x, hx, hnorm⟩
      rw [foldAssign_cons]
      rcases List.mem_cons.mp hx with h1 | h2
      · subst h1
        apply isSome_lookupA_foldAssign_of_isSome
        rw [hnorm, lookupA_setattr_self]
        rfl
      · exact ih _ ⟨x, h2, hnorm⟩

theorem exceptPure {e a : Type} (x : a) : (pure x : Except e a) = Except.ok x := rfl

theorem exceptBind_ok {e a b : Type} (x : a) (f : a → Except e b) :
    (Except.ok x >>= f) = f x := rfl

theorem exceptBind_err {e a b : Type} (x : e) (f : a → Except e b) :
    ((Except.error x : Except e a) >>= f) = Except.error x := rfl

theorem foldlM_step_nil (a : Attrs) :
    List.foldlM Order.step a ([] : Dict) = pure a := rfl

theorem foldlM_step_cons (kv : String × PyVal) (rest : Dict) (a : Attrs) :
    List.foldlM Order.step a (kv :: rest) =
      Order.step a kv >>= fun a2 => List.foldlM Order.step a2 rest := rfl

theorem Order.step_shape (a a2 : Attrs) (kv : String × PyVal)
    (h : Order.step a kv = Except.ok a2) :
    ∃ v, a2 = setattr a (to_snake_case kv.1) v := by
  unfold Order.step at h
  by_cases h1 : kv.1 = "validity"
  · rw [if_pos h1] at h
    cases hv : Validity.init kv.2 with
    | error e => rw [hv, exceptBind_err] at h; exact Except.noConfusion h
    | ok v =>
        rw [hv, exceptBind_ok, exceptPure] at h
        injection h with h2
        refine ⟨v, ?_⟩
        rw [← h2, h1, show to_snake_case "validity" = "validity" from by decide]
  · by_cases hvv : kv.1 = "volumes"
    · rw [if_neg h1, if_pos hvv] at h
      cases hv : Volume.init kv.2 with
      | error e => rw [hv, exceptBind_err] at h; exact Except.noConfusion h
      | ok v =>
          rw [hv, exceptBind_ok, exceptPure] at h
          injection h with h2
          refine ⟨v, ?_⟩
          rw [← h2, hvv, show to_snake_case "volumes" = "volumes" from by decide]
    · rw [if_neg h1, if_neg hvv, exceptPure] at h
      injection h with h2
      exact ⟨kv.2, h2.symm⟩

theorem Order.step_lookup_ne (a a2 : Attrs) (kv : String × PyVal)
    (h : Order.step a kv = Except.ok a2) (name : String)
    (hn : to_snake_case kv.1 ≠ name) : lookupA a2 name = lookupA a name := by
  obtain ⟨v, rfl⟩ := Order.step_shape a a2 kv h
  exact lookupA_setattr_ne _ _ _ _ hn

theorem Order.step_isSome (a a2 : Attrs) (kv : String × PyVal)
    (h : Order.step a kv = Except.ok a2) (name : String)
    (hs : (lookupA a name).isSome) : (lookupA a2 name).isSome := by
  obtain ⟨v, rfl⟩ := Order.step_shape a a2 kv h
  exact isSome_lookupA_setattr _ _ _ _ hs

theorem lookupA_foldlM_step_not_mem (data : Dict) :
    ∀ a attrs : Attrs,
      List.foldlM Order.step a data = Except.ok attrs →
      (∀ kv ∈ data, to_snake_case kv.1 ≠ "hash") →
      lookupA attrs "hash" = lookupA a "hash" := by
  induction data with
  | nil =>
      intro a attrs h _
      rw [foldlM_step_nil, exceptPure] at h
      injection h with h2
      rw [← h2]
  | cons kv rest ih =>
      intro a attrs h hnh
      rw [foldlM_step_cons] at h
      cases hstep : Order.step a kv with
      | error e => rw [hstep, exceptBind_err] at h; exact Except.noConfusion h
      | ok a2 =>
          rw [hstep, exceptBind_ok] at h
          rw [ih a2 attrs h (fun x hx => hnh x (List.mem_cons_of_mem _ hx))]
          exact Order.step_lookup_ne a a2 kv hstep "hash" (hnh kv (List.mem_cons_self _ _))

theorem isSome_lookupA_foldlM_step (data : Dict) :
    ∀ a attrs : Attrs,
      List.foldlM Order.step a data = Except.ok attrs →
      (lookupA a "hash").isSome →
      (lookupA attrs "hash").isSome := by
  induction data with
  | nil =>
      intro a attrs h hs
      rw [foldlM_step_nil, exceptPure] at h
      injection h with h2
      rwa [← h2]
  | cons kv rest ih =>
      intro a attrs h hs
      rw [foldlM_step_cons] at h
      cases hstep : Order.step a kv with
      | error e => rw [hstep, exceptBind_err] at h; exact Except.noConfusion h
      | ok a2 =>
          rw [hstep, exceptBind_ok] at h
          exact ih a2 attrs h (Order.step_isSome a a2 kv hstep "hash" hs)

theorem isErrorCheck_false_of_ge2 (o : PyObj) (data : Dict) (hj : o.json = data)
    (h : 2 ≤ data.length) : PartialOrder.isErrorCheck o (some data) = false := by
  rcases data with _ | ⟨kv, rest⟩
  · exact absurd h (by decide)
  · simp only [List.length_cons] at h
    simp [PartialOrder.isErrorCheck, hj]
    omega

theorem PartialOrder.initObj_json (cls : String) (data : Dict) :
    (PartialOrder.initObj cls data).json = data := by
  unfold PartialOrder.initObj
  split <;> rfl

theorem PartialOrder.initObj_cls (cls : String) (data : Dict) :
    (PartialOrder.initObj cls data).cls = cls := by
  unfold PartialOrder.initObj
  split <;> rfl

theorem PartialOrder.initObj_attrs_of_lt2 (cls : String) (data : Dict)
    (h : data.length < 2) : (PartialOrder.initObj cls data).attrs = [] := by
  rcases data with _ | ⟨kv, _ | ⟨kv2, rest⟩⟩
  · rfl
  · rfl
  · exfalso
    simp only [List.length_cons] at h
    omega

theorem PartialOrder.initObj_attrs_of_ge2 (cls : String) (data : Dict)
    (h : 2 ≤ data.length) :
    (PartialOrder.initObj cls data).attrs =
      Transfer.initLoop (Transfer.initLoop [] data) data := by
  have hb : PartialOrder.isErrorCheck { cls := cls, json := data, attrs := [] }
      (some data) = false := isErrorCheck_false_of_ge2 _ _ rfl h
  unfold PartialOrder.initObj
  rw [if_neg (by simp [hb])]

theorem Order.init_of_lt2 (data : Dict) (h : data.length < 2) :
    Order.init data = Except.ok { cls := "Order", json := data, attrs := [] } := by
  rcases data with _ | ⟨kv, _ | ⟨kv2, rest⟩⟩
  · rfl
  · rfl
  · exfalso
    simp only [List.length_cons] at h
    omega

theorem Order.init_ok_elim (data : Dict) (h : 2 ≤ data.length) (o : PyObj)
    (ho : Order.init data = Except.ok o) :
    o.cls = "Order" ∧ o.json = data ∧
    List.foldlM Order.step (PartialOrder.initObj "Order" data).attrs data =
      Except.ok o.attrs := by
  have hb : PartialOrder.isErrorCheck (PartialOrder.initObj "Order" data)
      (some data) = false :=
    isErrorCheck_false_of_ge2 _ _ (PartialOrder.initObj_json _ _) h
  unfold Order.init at ho
  rw [if_neg (by simp [hb])] at ho
  cases hfold : List.foldlM Order.step (PartialOrder.initObj "Order" data).attrs data with
  | error e => rw [hfold, exceptBind_err] at ho; exact Except.noConfusion ho
  | ok attrs =>
      rw [hfold, exceptBind_ok, exceptPure] at ho
      injection ho with ho2
      subst ho2
      refine ⟨PartialOrder.initObj_cls _ _, PartialOrder.initObj_json _ _, ?_⟩
      rfl

theorem reprFn_incomplete (o : PyObj) (h : lookupA o.attrs "hash" = Option.none) :
    PartialOrder.reprFn o = "<Incomplete PartialOrder>" := by
  simp [PartialOrder.reprFn, PartialOrder.isErrorCheck, h]

theorem order_reprFn_incomplete (o : PyObj) (h : lookupA o.attrs "hash" = Option.none) :
    Order.reprFn o = "<Incomplete Order>" := by
  simp [Order.reprFn, PartialOrder.isErrorCheck, h]

theorem strFn_incomplete (o : PyObj) (h : lookupA o.attrs "hash" = Option.none) :
    PartialOrder.strFn o = Except.ok ("Incomplete " ++ o.cls ++ ".") := by
  simp [PartialOrder.strFn, PartialOrder.isErrorCheck, h]

theorem getattr_hash_none (o : PyObj) (h : lookupA o.attrs "hash" = Option.none) :
    PartialOrder.getattr o "hash" = Except.error "AttributeError: hash" := by
  unfold PartialOrder.getattr
  rw [if_neg (by decide), h]
  rfl

theorem order_getattr_hash_none (o : PyObj) (h : lookupA o.attrs "hash" = Option.none) :
    Order.getattribute o "hash" = Except.error "AttributeError: hash" := by
  unfold Order.getattribute
  rw [if_neg (by decide)]
  exact getattr_hash_none o h

theorem getattr_hash_isSome (o : PyObj) (h : (lookupA o.attrs "hash").isSome) :
    exceptIsOk (PartialOrder.getattr o "hash") = true := by
  obtain ⟨v, hv⟩ := Option.isSome_iff_exists.mp h
  unfold PartialOrder.getattr
  rw [if_neg (by decide), hv]
  rfl

theorem order_getattr_hash_isSome (o : PyObj) (h : (lookupA o.attrs "hash").isSome) :
    exceptIsOk (Order.getattribute o "hash") = true := by
  unfold Order.getattribute
  rw [if_neg (by decide)]
  exact getattr_hash_isSome o h

theorem pyTruthy_pyOr (a b : PyVal) :
    pyTruthy (pyOr a b) = (pyTruthy a || pyTruthy b) := by
  unfold pyOr
  cases hA : pyTruthy a <;> simp [hA]

theorem Client.init_cfg (aid key ep : PyVal) (he : Bool) (cfg : Dict) :
    Client.init aid key ep he [("config", PyVal.dict cfg)] =
      (if !(pyTruthy (pyOr (dictGet cfg "account_id") aid)) then
        Except.error (ClientError.invalidArguments "Missing account ID from config.")
      else if !(pyTruthy (pyOr (dictGet cfg "api_key") key)) then
        Except.error (ClientError.invalidArguments "Missing API Key from config.")
      else if !(pyTruthy (pyOr (dictGet cfg "endpoint") ep)) then
        Except.error (ClientError.invalidArguments "Missing endpoint from config.")
      else Except.ok { account_id := pyOr (dictGet cfg "account_id") aid,
                       api_key := pyOr (dictGet cfg "api_key") key,
                       endpoint := pyOr (dictGet cfg "endpoint") ep,
                       handle_errors := he,
                       session := { closed := false } }) := rfl

/-! The claims. -/

/-- C1 (amended). For every input mapping with exactly 0 or 1 top-level keys,
constructing a PartialOrder or an Order yields a placeholder object: its repr
and str rendering do not raise and indicate incompleteness, and reading the
hash attribute fails. For every mapping with 2 or more keys the object is
non-placeholder by the key-count rule and, provided at least one key
normalizes to hash, reading the hash attribute succeeds: unconditionally on
the PartialOrder, whose constructor is total, and on every Order the
constructor actually returns (Order construction can itself raise TypeError
when a validity or volumes value is not a well-formed mapping of numeric
timestamps, in which case no object exists for the claim to speak about).
(The original final clause, that reading hash never fails on any
2-or-more-key mapping, is false: a 2-key mapping without a hash-like key
passes the key-count test yet carries no hash attribute; see the
counterexample.) -/
theorem c1_amended (data : Dict) :
    (data.length < 2 →
      PartialOrder.reprFn (PartialOrder.init data) = "<Incomplete PartialOrder>" ∧
      PartialOrder.strFn (PartialOrder.init data) = Except.ok "Incomplete PartialOrder." ∧
      PartialOrder.getattr (PartialOrder.init data) "hash" = Except.error "AttributeError: hash" ∧
      Order.init data = Except.ok { cls := "Order", json := data, attrs := [] } ∧
      Order.reprFn { cls := "Order", json := data, attrs := [] } = "<Incomplete Order>" ∧
      PartialOrder.strFn { cls := "Order", json := data, attrs := [] } =
        Except.ok "Incomplete Order." ∧
      Order.getattribute { cls := "Order", json := data, attrs := [] } "hash" =
        Except.error "AttributeError: hash") ∧
    (2 ≤ data.length → (∃ kv ∈ data, to_snake_case kv.1 = "hash") →
      exceptIsOk (PartialOrder.getattr (PartialOrder.init data) "hash") = true ∧
      ∀ o : PyObj, Order.init data = Except.ok o →
        exceptIsOk (Order.getattribute o "hash") = true) := by
  constructor
  · intro h
    have hP : lookupA (PartialOrder.init data).attrs "hash" = Option.none := by
      rw [show PartialOrder.init data = PartialOrder.initObj "PartialOrder" data from rfl,
        PartialOrder.initObj_attrs_of_lt2 _ _ h]
      rfl
    have hcP : (PartialOrder.init data).cls = "PartialOrder" :=
      PartialOrder.initObj_cls _ _
    refine ⟨reprFn_incomplete _ hP, ?_, getattr_hash_none _ hP, Order.init_of_lt2 _ h,
      order_reprFn_incomplete { cls := "Order", json := data, attrs := [] } rfl, ?_,
      order_getattr_hash_none { cls := "Order", json := data, attrs := [] } rfl⟩
    · rw [strFn_incomplete _ hP, hcP]
      rfl
    · rw [strFn_incomplete { cls := "Order", json := data, attrs := [] } rfl]
      rfl
  · intro h hex
    have hPsome : (lookupA (PartialOrder.init data).attrs "hash").isSome := by
      rw [show PartialOrder.init data = PartialOrder.initObj "PartialOrder" data from rfl,
        PartialOrder.initObj_attrs_of_ge2 _ _ h]
      unfold Transfer.initLoop
      exact isSome_lookupA_foldAssign_of_mem _ _ _ _ _ hex
    refine ⟨getattr_hash_isSome _ hPsome, ?_⟩
    intro o ho
    obtain ⟨hcls, hjson, hfold⟩ := Order.init_ok_elim data h o ho
    have hbase : (lookupA (PartialOrder.initObj "Order" data).attrs "hash").isSome := by
      rw [PartialOrder.initObj_attrs_of_ge2 _ _ h]
      unfold Transfer.initLoop
      exact isSome_lookupA_foldAssign_of_mem _ _ _ _ _ hex
    exact order_getattr_hash_isSome _ (isSome_lookupA_foldlM_step data _ _ hfold hbase)

/-- C1 counterexample: the mapping with the 2 keys foo and bar passes the
key-count test (it is not a placeholder by that rule), and both constructors
succeed on it, yet reading hash on the constructed PartialOrder and Order
raises AttributeError, refuting the claim that for every mapping with 2 or
more keys reading hash never fails. -/
theorem c1_counterexample :
    ([("foo", PyVal.int 1), ("bar", PyVal.int 2)] : Dict).length = 2 ∧
    PartialOrder.getattr (PartialOrder.init [("foo", PyVal.int 1), ("bar", PyVal.int 2)]) "hash" =
      Except.error "AttributeError: hash" ∧
    Order.init [("foo", PyVal.int 1), ("bar", PyVal.int 2)] =
      Except.ok { cls := "Order", json := [("foo", PyVal.int 1), ("bar", PyVal.int 2)],
                  attrs := [("foo", PyVal.int 1), ("bar", PyVal.int 2)] } ∧
    Order.getattribute
      { cls := "Order", json := [("foo", PyVal.int 1), ("bar", PyVal.int 2)],
        attrs := [("foo", PyVal.int 1), ("bar", PyVal.int 2)] } "hash" =
      Except.error "AttributeError: hash" :=
  ⟨rfl, rfl, rfl, rfl⟩

/-- C1 witness: the amended theorem applied at a 1-key placeholder mapping and
at a 2-key mapping containing a hash key, on which the Order constructor
succeeds with the object named here. -/
theorem c1_witness :
    PartialOrder.getattr (PartialOrder.init [("resultInfo", PyVal.int 7)]) "hash" =
      Except.error "AttributeError: hash" ∧
    exceptIsOk (Order.getattribute
      { cls := "Order",
        json := [("hash", PyVal.str "0x1"), ("status", PyVal.str "processed")],
        attrs := [("hash", PyVal.str "0x1"), ("status", PyVal.str "processed")] }
      "hash") = true :=
  ⟨((c1_amended [("resultInfo", PyVal.int 7)]).1 (by decide)).2.2.1,
   ((c1_amended [("hash", PyVal.str "0x1"), ("status", PyVal.str "processed")]).2
      (by decide) (by decide)).2 _ rfl⟩

/-- C2. Reading the is_idempotent attribute through the Order attribute-access
path fails with an AttributeError on every object (Order.__getattribute__
intercepts the name before any lookup), and in particular on every Order the
constructor returns, from any input mapping; the same attribute is an
ordinary readable one on a PartialOrder populated from a mapping carrying the
isIdempotent wire key. -/
theorem c2_order_is_idempotent_read_fails :
    (∀ o : PyObj, Order.getattribute o "is_idempotent" =
      Except.error "type object \x27Order\x27 has no attribute \x27is_idempotent\x27") ∧
    (∀ (data : Dict) (o : PyObj), Order.init data = Except.ok o →
      Order.getattribute o "is_idempotent" =
        Except.error "type object \x27Order\x27 has no attribute \x27is_idempotent\x27") ∧
    PartialOrder.getattr
      (PartialOrder.init [("hash", PyVal.str "h"), ("isIdempotent", PyVal.bool true)])
      "is_idempotent" = Except.ok (PyVal.bool true) :=
  ⟨fun _ => rfl, fun _ _ _ => rfl, rfl⟩

/-- C2 witness: the theorem applied to the Order constructed from a mapping
that carries the isIdempotent wire key. -/
theorem c2_witness :
    Order.getattribute
      { cls := "Order",
        json := [("hash", PyVal.str "h"), ("isIdempotent", PyVal.bool true)],
        attrs := [("hash", PyVal.str "h"), ("is_idempotent", PyVal.bool true)] }
      "is_idempotent" =
      Except.error "type object \x27Order\x27 has no attribute \x27is_idempotent\x27" :=
  c2_order_is_idempotent_read_fails.2.1
    [("hash", PyVal.str "h"), ("isIdempotent", PyVal.bool true)] _ rfl

/-- C3 counterexample: with the asks and bids of the claim, OrderBook
construction does not yield the claimed book at all. The 4-element wire arrays
are splatted positionally onto the parameters (price, size, volume, quantity)
of the book-entry constructor, so the single ask gets quantity 200 (not 2),
and the bid array fails outright because int is applied to the fractional
string 99.5, a ValueError; hence no quantities 2 and 1 and no total length 3. -/
theorem c3_counterexample :
    OrderBook.init
      [("asks", PyVal.list [PyVal.list [PyVal.str "100.5", PyVal.str "2", PyVal.str "10", PyVal.str "200"]]),
       ("bids", PyVal.list [PyVal.list [PyVal.str "99.5", PyVal.str "1", PyVal.str "5", PyVal.str "99.5"]])] =
      Option.none ∧
    (Ask.ofList [PyVal.str "100.5", PyVal.str "2", PyVal.str "10", PyVal.str "200"]).map
      BookOrder.quantity = some 200 :=
  ⟨rfl, rfl⟩

/-- C3 (amended). The 4-element arrays are consumed positionally as (price,
size, volume, quantity): from the asks array of the claim the single Ask has
price 100.5, size 2, volume 10 and quantity 200; the bids array of the claim
fails to construct (int of the fractional string 99.5 raises ValueError), so
the OrderBook of the claim is never produced; with those asks and an empty
bids list the book total length (sum of quantity over all asks and bids)
is 200. -/
theorem c3_amended :
    Ask.ofList [PyVal.str "100.5", PyVal.str "2", PyVal.str "10", PyVal.str "200"] =
      some { price := PyVal.str "100.5", quantity := 200, size := 2, volume := 10 } ∧
    Bid.ofList [PyVal.str "99.5", PyVal.str "1", PyVal.str "5", PyVal.str "99.5"] = Option.none ∧
    (OrderBook.init
      [("asks", PyVal.list [PyVal.list [PyVal.str "100.5", PyVal.str "2", PyVal.str "10", PyVal.str "200"]]),
       ("bids", PyVal.list [])]).bind OrderBook.len = some 200 :=
  ⟨rfl, rfl, rfl⟩

/-- C4. For every input mapping with fewer than 2 keys, the PartialOrder and
Order constructors detect the placeholder condition before any typed-field
assignment: the resulting object has an empty instance attribute dictionary
(no typed field set), and its only stored state is the raw mapping, still
accessible through the json property. -/
theorem c4_placeholder_frame (data : Dict) (h : data.length < 2) :
    (PartialOrder.init data).attrs = [] ∧ (PartialOrder.init data).json = data ∧
    Order.init data = Except.ok { cls := "Order", json := data, attrs := [] } ∧
    PartialOrder.getattr (PartialOrder.init data) "json" = Except.ok (PyVal.dict data) ∧
    Order.getattribute { cls := "Order", json := data, attrs := [] } "json" =
      Except.ok (PyVal.dict data) := by
  refine ⟨PartialOrder.initObj_attrs_of_lt2 _ _ h, PartialOrder.initObj_json _ _,
    Order.init_of_lt2 _ h, ?_, ?_⟩
  · unfold PartialOrder.getattr
    rw [if_pos rfl, show (PartialOrder.init data).json = data from PartialOrder.initObj_json _ _]
  · unfold Order.getattribute PartialOrder.getattr
    rw [if_neg (by decide), if_pos rfl]

/-- C4 witness: the theorem applied to the 1-key error mapping resultInfo. -/
theorem c4_witness :
    (PartialOrder.init [("resultInfo", PyVal.dict [])]).attrs = [] ∧
    Order.init [("resultInfo", PyVal.dict [])] =
      Except.ok { cls := "Order", json := [("resultInfo", PyVal.dict [])], attrs := [] } :=
  ⟨(c4_placeholder_frame [("resultInfo", PyVal.dict [])] (by decide)).1,
   (c4_placeholder_frame [("resultInfo", PyVal.dict [])] (by decide)).2.2.1⟩

/-- C5. The field-name normalization is a total deterministic Lean function;
it is injective (collision-free) over the fixed set of camelCase wire field
names used by this API, and maps orderHash to order_hash and accountId to
account_id. -/
theorem c5_to_snake_case_normalization :
    (wireFields.map to_snake_case).Nodup ∧
    to_snake_case "orderHash" = "order_hash" ∧
    to_snake_case "accountId" = "account_id" :=
  ⟨by decide, by decide, by decide⟩

/-- C6 (amended). Provided a config keyword argument carrying a mapping is
supplied, configuration and call-argument errors are raised synchronously
before any network call: constructing a Client with a missing (falsy) account
id, API key, or endpoint raises InvalidArguments, calling get_next_storage_id
with a falsy sell_token_id raises InvalidArguments, and calling
get_order_details with a falsy orderhash raises InvalidArguments. In the
embedding a method only yields an HttpRequest value on the success branch, so
an error result means no HTTP request was issued; the session (the only
network resource) is created only on the Ok branch of the constructor. (The
original claim without the config proviso is false: with no config keyword the
constructor raises KeyError before any InvalidArguments check; see the
counterexample.) -/
theorem c6_amended (cfg : Dict) (aid key ep : PyVal) (he : Bool) :
    (pyTruthy (dictGet cfg "account_id") = false →
      Client.init PyVal.none key ep he [("config", PyVal.dict cfg)] =
        Except.error (ClientError.invalidArguments "Missing account ID from config.")) ∧
    ((pyTruthy (dictGet cfg "account_id") || pyTruthy aid) = true →
      pyTruthy (dictGet cfg "api_key") = false →
      Client.init aid PyVal.none ep he [("config", PyVal.dict cfg)] =
        Except.error (ClientError.invalidArguments "Missing API Key from config.")) ∧
    ((pyTruthy (dictGet cfg "account_id") || pyTruthy aid) = true →
      (pyTruthy (dictGet cfg "api_key") || pyTruthy key) = true →
      pyTruthy (dictGet cfg "endpoint") = false →
      Client.init aid key PyVal.none he [("config", PyVal.dict cfg)] =
        Except.error (ClientError.invalidArguments "Missing endpoint from config.")) ∧
    (∀ c : ClientState, ∀ sid : PyVal, pyTruthy sid = false →
      Client.get_next_storage_id c sid =
        Except.error (ClientError.invalidArguments "Missing \x27sellTokenID\x27 argument.")) ∧
    (∀ c : ClientState, ∀ oh : PyVal, pyTruthy oh = false →
      Client.get_order_details c oh =
        Except.error (ClientError.invalidArguments "Missing \x27orderhash\x27 argument.")) := by
  refine ⟨?_, ?_, ?_, ?_, ?_⟩
  · intro h1
    have hc1 : pyTruthy (pyOr (dictGet cfg "account_id") PyVal.none) = false := by
      rw [pyTruthy_pyOr, h1]
      rfl
    rw [Client.init_cfg]
    simp [hc1]
  · intro hacc h2
    have ha : pyTruthy (pyOr (dictGet cfg "account_id") aid) = true := by
      rw [pyTruthy_pyOr, hacc]
    have hb : pyTruthy (pyOr (dictGet cfg "api_key") PyVal.none) = false := by
      rw [pyTruthy_pyOr, h2]
      rfl
    rw [Client.init_cfg]
    simp [ha, hb]
  · intro hacc hkey h3
    have ha : pyTruthy (pyOr (dictGet cfg "account_id") aid) = true := by
      rw [pyTruthy_pyOr, hacc]
    have hk : pyTruthy (pyOr (dictGet cfg "api_key") key) = true := by
      rw [pyTruthy_pyOr, hkey]
    have hc : pyTruthy (pyOr (dictGet cfg "endpoint") PyVal.none) = false := by
      rw [pyTruthy_pyOr, h3]
      rfl
    rw [Client.init_cfg]
    simp [ha, hk, hc]
  · intro c sid h
    simp [Client.get_next_storage_id, h]
  · intro c oh h
    simp [Client.get_order_details, h]

/-- C6 counterexample: constructing a Client with all of account id, API key
and endpoint missing as positional arguments but also without a config keyword
raises KeyError, not InvalidArguments, refuting the unconditional claim. -/
theorem c6_counterexample :
    Client.init PyVal.none (PyVal.str "key") (PyVal.str "endpoint") true [] =
      Except.error (ClientError.keyError "config") ∧
    (Except.error (ClientError.keyError "config") :
        Except ClientError ClientState) ≠
      Except.error (ClientError.invalidArguments "Missing account ID from config.") := by
  refine ⟨rfl, ?_⟩
  intro h
  injection h with h2
  exact ClientError.noConfusion h2

/-- C6 witness: the amended theorem applied at an empty config mapping and at
concrete client states with absent arguments. -/
theorem c6_witness :
    Client.init PyVal.none (PyVal.str "k") (PyVal.str "e") true [("config", PyVal.dict [])] =
      Except.error (ClientError.invalidArguments "Missing account ID from config.") ∧
    Client.get_next_storage_id
      { account_id := PyVal.int 1, api_key := PyVal.str "k", endpoint := PyVal.str "e",
        handle_errors := true, session := { closed := false } } PyVal.none =
      Except.error (ClientError.invalidArguments "Missing \x27sellTokenID\x27 argument.") ∧
    Client.get_order_details
      { account_id := PyVal.int 1, api_key := PyVal.str "k", endpoint := PyVal.str "e",
        handle_errors := true, session := { closed := false } } PyVal.none =
      Except.error (ClientError.invalidArguments "Missing \x27orderhash\x27 argument.") :=
  ⟨(c6_amended [] (PyVal.int 1) (PyVal.str "k") (PyVal.str "e") true).1 rfl,
   (c6_amended [] (PyVal.int 1) (PyVal.str "k") (PyVal.str "e") true).2.2.2.1 _ PyVal.none rfl,
   (c6_amended [] (PyVal.int 1) (PyVal.str "k") (PyVal.str "e") true).2.2.2.2 _ PyVal.none rfl⟩

/-- C7. Closing the connection session is idempotent: a second close after a
first close is a no-op that does not raise (the embedded close is a total
function) and the session ends up closed. -/
theorem c7_close_idempotent (s : Session) :
    Client.close (Client.close s) = Client.close s ∧
    (Client.close (Client.close s)).closed = true := by
  obtain ⟨c⟩ := s
  cases c <;> simp [Client.close, Session.closeRaw]

/-- C8. For every combination of account_id, api_key and endpoint arguments
(even when all three are supplied), constructing a Client whose keyword rest
mapping has no config entry raises KeyError, because the constructor reads
config["config"] before the missing-configuration checks run. -/
theorem c8_missing_config_raises_keyerror (aid key ep : PyVal) (he : Bool)
    (config : Dict) (h : lookupA config "config" = Option.none) :
    Client.init aid key ep he config = Except.error (ClientError.keyError "config") := by
  unfold Client.init
  rw [h]

/-- C8 witness: all three arguments supplied, no config keyword. -/
theorem c8_witness :
    Client.init (PyVal.int 1) (PyVal.str "key") (PyVal.str "endpoint") true [] =
      Except.error (ClientError.keyError "config") :=
  c8_missing_config_raises_keyerror (PyVal.int 1) (PyVal.str "key")
    (PyVal.str "endpoint") true [] rfl

/-- C9. get_next_storage_id treats every falsy sell_token_id as missing: with
sell_token_id equal to 0 it raises InvalidArguments, with exactly the same
result as when the argument is absent (None). -/
theorem c9_zero_sell_token_id (c : ClientState) :
    Client.get_next_storage_id c (PyVal.int 0) =
      Except.error (ClientError.invalidArguments "Missing \x27sellTokenID\x27 argument.") ∧
    Client.get_next_storage_id c (PyVal.int 0) =
      Client.get_next_storage_id c PyVal.none :=
  ⟨rfl, rfl⟩

/-- C10. The placeholder test used by rendering is the absence of a hash
attribute, not the key count: a PartialOrder constructed from a mapping with
2 or more keys, none of which normalizes to hash, is non-placeholder by the
key-count rule, yet its repr and str render as incomplete and reading hash on
it fails; the same holds for every Order the constructor returns from such a
mapping (Order construction can itself raise TypeError on malformed validity
or volumes values, in which case no object renders anything). -/
theorem c10_render_tests_hash_not_key_count (data : Dict)
    (h2 : 2 ≤ data.length) (hnh : ∀ kv ∈ data, to_snake_case kv.1 ≠ "hash") :
    PartialOrder.reprFn (PartialOrder.init data) = "<Incomplete PartialOrder>" ∧
    PartialOrder.strFn (PartialOrder.init data) = Except.ok "Incomplete PartialOrder." ∧
    PartialOrder.getattr (PartialOrder.init data) "hash" = Except.error "AttributeError: hash" ∧
    (∀ o : PyObj, Order.init data = Except.ok o →
      Order.reprFn o = "<Incomplete Order>" ∧
      PartialOrder.strFn o = Except.ok "Incomplete Order." ∧
      Order.getattribute o "hash" = Except.error "AttributeError: hash") := by
  have hP : lookupA (PartialOrder.init data).attrs "hash" = Option.none := by
    rw [show PartialOrder.init data = PartialOrder.initObj "PartialOrder" data from rfl,
      PartialOrder.initObj_attrs_of_ge2 _ _ h2]
    unfold Transfer.initLoop
    rw [lookupA_foldAssign_not_mem _ _ _ _ _ hnh, lookupA_foldAssign_not_mem _ _ _ _ _ hnh]
    rfl
  refine ⟨reprFn_incomplete _ hP, ?_, getattr_hash_none _ hP, ?_⟩
  · rw [strFn_incomplete _ hP, show (PartialOrder.init data).cls = "PartialOrder" from
      PartialOrder.initObj_cls _ _]
    rfl
  · intro o ho
    obtain ⟨hcls, hjson, hfold⟩ := Order.init_ok_elim data h2 o ho
    have hbase : lookupA (PartialOrder.initObj "Order" data).attrs "hash" = Option.none := by
      rw [PartialOrder.initObj_attrs_of_ge2 _ _ h2]
      unfold Transfer.initLoop
      rw [lookupA_foldAssign_not_mem _ _ _ _ _ hnh, lookupA_foldAssign_not_mem _ _ _ _ _ hnh]
      rfl
    have hO : lookupA o.attrs "hash" = Option.none := by
      rw [lookupA_foldlM_step_not_mem data _ _ hfold hnh, hbase]
    refine ⟨order_reprFn_incomplete _ hO, ?_, order_getattr_hash_none _ hO⟩
    rw [strFn_incomplete _ hO, hcls]
    rfl

/-- C10 witness: the theorem applied to a 2-key mapping without a hash-like
key, on which the Order constructor succeeds with the object named here. -/
theorem c10_witness :
    PartialOrder.reprFn
      (PartialOrder.init [("resultInfo", PyVal.dict []), ("peek", PyVal.int 1)]) =
      "<Incomplete PartialOrder>" ∧
    Order.reprFn
      { cls := "Order",
        json := [("resultInfo", PyVal.dict []), ("peek", PyVal.int 1)],
        attrs := [("result_info", PyVal.dict []), ("peek", PyVal.int 1)] } =
      "<Incomplete Order>" :=
  ⟨(c10_render_tests_hash_not_key_count [("resultInfo", PyVal.dict []), ("peek", PyVal.int 1)]
      (by decide) (by decide)).1,
   ((c10_render_tests_hash_not_key_count [("resultInfo", PyVal.dict []), ("peek", PyVal.int 1)]
      (by decide) (by decide)).2.2.2 _ rfl).1⟩
